import Mathlib

/-!
Verification of the burst_db repository: a shallow embedding of the
EPSG-assignment, frame-construction, bounding-box, identifier, query and
acquisition routines of the two frame-database builder generations
(`build_frame_db.py`, the current builder, and `make_frame_db.py`, the
legacy builder), together with the JSON utility (`db_to_json.py`) and the
historical-burst query tool (`query_historical_bursts.py`).

Coordinates and areas are modelled as exact rationals; machine floats in
the source are treated as exact real arithmetic.  Geometries are reduced
to the data the routines actually consult: each polygon part carries its
area and its centroid coordinates, and a geometry is either a single
polygon or a multipolygon (a list of parts).  The centroid of a
multipolygon is the area-weighted centroid of its parts, matching the
geometry library's behaviour on disjoint parts.
-/

/-- A polygon part: its area and centroid longitude/latitude, as the EPSG
routines consume it. -/
structure PolyPart where
  area : ℚ
  cx : ℚ
  cy : ℚ
deriving DecidableEq, Repr

/-- A geometry as classified by `get_epsg_codes`: either a `Polygon` or a
`MultiPolygon` with a list of parts. -/
inductive Geom where
  | poly : PolyPart → Geom
  | multi : List PolyPart → Geom
deriving DecidableEq, Repr

/-- The list of parts of a geometry (`geom.geoms`; a polygon is its own
single part). -/
def Geom.parts : Geom → List PolyPart
  | .poly p => [p]
  | .multi ps => ps

/-- Centroid longitude of a geometry: for a multipolygon, the
area-weighted average of the parts' centroid longitudes. -/
def centroidX (g : Geom) : ℚ :=
  match g with
  | .poly p => p.cx
  | .multi ps => (ps.map fun p => p.cx * p.area).sum / (ps.map PolyPart.area).sum

/-- Centroid latitude of a geometry: for a multipolygon, the
area-weighted average of the parts' centroid latitudes. -/
def centroidY (g : Geom) : ℚ :=
  match g with
  | .poly p => p.cy
  | .multi ps => (ps.map fun p => p.cy * p.area).sum / (ps.map PolyPart.area).sum

/-- Python `int()` applied to a rational: truncation toward zero. -/
def pyInt (x : ℚ) : ℤ := if x < 0 then ⌈x⌉ else ⌊x⌋

/-- The `utm` library's `latlon_to_zone_number` (the third component of
`utm.from_latlon`), translated from the library the builders depend on:
the general formula `int((longitude + 180) / 6) + 1` with the
Norway (zone 32) and Svalbard (zones 31/33/35/37) special cases. -/
def latlon_to_zone_number (latitude longitude : ℚ) : ℤ :=
  if 56 ≤ latitude ∧ latitude < 64 ∧ 3 ≤ longitude ∧ longitude < 12 then 32
  else if 72 ≤ latitude ∧ latitude ≤ 84 ∧ 0 ≤ longitude then
    if longitude < 9 then 31
    else if longitude < 21 then 33
    else if longitude < 33 then 35
    else if longitude < 42 then 37
    else pyInt ((longitude + 180) / 6) + 1
  else pyInt ((longitude + 180) / 6) + 1

/-- `build_frame_db.NORTH_THRESHOLD`. -/
def NORTH_THRESHOLD : ℚ := 75
/-- `build_frame_db.NORTH_EPSG`. -/
def NORTH_EPSG : ℤ := 3413
/-- `build_frame_db.SOUTH_THRESHOLD`. -/
def SOUTH_THRESHOLD : ℚ := -60
/-- `build_frame_db.SOUTH_EPSG`. -/
def SOUTH_EPSG : ℤ := 3031

/-- The area-weighted, antimeridian-shifted longitude centroid computed by
the loop shared verbatim by both builders' `antimeridian_epsg`: each part
whose own centroid longitude is negative is shifted by +360 degrees
(`translate(g, xoff=360)` shifts the centroid by exactly +360), each
(possibly shifted) centroid longitude is weighted by the part's area, and
the weighted sum is divided by the total area. -/
def weighted_x_c (g : Geom) : ℚ :=
  (g.parts.map fun p => (if p.cx < 0 then p.cx + 360 else p.cx) * p.area).sum
    / (g.parts.map PolyPart.area).sum

/-- `build_frame_db.antimeridian_epsg` (current builder). -/
def antimeridian_epsg (mp : Geom) : ℤ :=
  let y_c := centroidY mp
  if y_c ≥ NORTH_THRESHOLD then NORTH_EPSG
  else if y_c ≤ SOUTH_THRESHOLD then SOUTH_EPSG
  else
    let x_c := weighted_x_c mp
    let base : ℤ := if y_c > 0 then 32600 else 32700
    let zone_addition : ℤ := if x_c > 180 then 1 else 60
    base + zone_addition

/-- `make_frame_db.antimeridian_epsg` (legacy builder): north cutoff 84
instead of 75, and the zone addition condition is `x_c < 180` instead of
`x_c > 180`. -/
def legacy_antimeridian_epsg (mp : Geom) : ℤ :=
  let y_c := centroidY mp
  if y_c ≥ 84 then 3413
  else if y_c ≤ -60 then 3031
  else
    let x_c := weighted_x_c mp
    let base : ℤ := if y_c > 0 then 32600 else 32700
    let zone_addition : ℤ := if x_c < 180 then 1 else 60
    base + zone_addition

/-- `build_frame_db.get_epsg_codes._is_on_antimeridian`: a geometry is
antimeridian-crossing iff it is a `MultiPolygon` with more than one part. -/
def is_on_antimeridian : Geom → Bool
  | .poly _ => false
  | .multi ps => decide (ps.length > 1)

/-- The legacy builder's antimeridian test in `make_frame_db.get_epsg_codes`
(line 151): every geometry whose type is not `Polygon`. -/
def legacy_is_antimeridian : Geom → Bool
  | .poly _ => false
  | .multi _ => true

/-- One row of `build_frame_db.get_epsg_codes`.  The numpy masks written
by the source are pairwise disjoint, so the sequence of masked
assignments is equivalent to this per-row conditional; a row matching no
mask keeps the `np.zeros` initialization.  The final Greenland override
(`epsgs[is_in_greenland] = NORTH_EPSG`) is modelled by the
`is_in_greenland` flag of the row. -/
def get_epsg_code (g : Geom) (is_in_greenland : Bool) : ℤ :=
  let base :=
    if is_on_antimeridian g then antimeridian_epsg g
    else
      let x := centroidX g
      let y := centroidY g
      if y > NORTH_THRESHOLD then NORTH_EPSG
      else if y < SOUTH_THRESHOLD then SOUTH_EPSG
      else if y < NORTH_THRESHOLD ∧ y > 0 then 32600 + latlon_to_zone_number y x
      else if y > SOUTH_THRESHOLD ∧ y < 0 then 32700 + latlon_to_zone_number y x
      else 0
  if is_in_greenland then NORTH_EPSG else base

/-- `build_frame_db.get_epsg_codes` over a dataframe of rows, each row a
geometry together with its Greenland-intersection flag. -/
def get_epsg_codes (rows : List (Geom × Bool)) : List ℤ :=
  rows.map fun r => get_epsg_code r.1 r.2

/-- One row of `make_frame_db.get_epsg_codes` (legacy builder): thresholds
84 / −60, antimeridian test `geom_type != "Polygon"`, no Greenland
override. -/
def legacy_get_epsg_code (g : Geom) : ℤ :=
  if legacy_is_antimeridian g then legacy_antimeridian_epsg g
  else
    let x := centroidX g
    let y := centroidY g
    if y > 84 then 3413
    else if y < -60 then 3031
    else if y < 84 ∧ y > 0 then 32600 + latlon_to_zone_number y x
    else if y > -60 ∧ y < 0 then 32700 + latlon_to_zone_number y x
    else 0

/-- The three classification branches of the current builder's
`get_epsg_codes`: antimeridian. -/
def amBranch (g : Geom) : Prop := is_on_antimeridian g = true

/-- Polar branch: not antimeridian, centroid latitude above the north
threshold or below the south threshold. -/
def polarBranch (g : Geom) : Prop :=
  is_on_antimeridian g = false ∧
    (centroidY g > NORTH_THRESHOLD ∨ centroidY g < SOUTH_THRESHOLD)

/-- UTM branch: not antimeridian, centroid latitude strictly inside one of
the hemispheric bands. -/
def utmBranch (g : Geom) : Prop :=
  is_on_antimeridian g = false ∧
    ((0 < centroidY g ∧ centroidY g < NORTH_THRESHOLD) ∨
      (SOUTH_THRESHOLD < centroidY g ∧ centroidY g < 0))

/-- The UTM zone number is between 1 and 61 whenever the longitude is in
the range `utm.from_latlon` accepts. -/
lemma latlon_to_zone_number_bounds (lat lon : ℚ) (h1 : -180 ≤ lon) (h2 : lon ≤ 180) :
    1 ≤ latlon_to_zone_number lat lon ∧ latlon_to_zone_number lat lon ≤ 61 := by
  have hge : (0:ℚ) ≤ (lon + 180) / 6 := by linarith
  have hle : (lon + 180) / 6 ≤ 60 := by linarith
  have hf1 : (0:ℤ) ≤ ⌊(lon + 180) / 6⌋ := Int.floor_nonneg.mpr hge
  have hf2 : ⌊(lon + 180) / 6⌋ ≤ 60 := by
    have h := Int.floor_le_floor hle
    simpa using h
  unfold latlon_to_zone_number pyInt
  have hnot : ¬ ((lon + 180) / 6 < 0) := not_lt.mpr hge
  split_ifs <;> omega

/-- `antimeridian_epsg` only ever returns one of 3413, 3031, 32601, 32660,
32701, 32760; in particular it is never 0. -/
lemma antimeridian_epsg_ne_zero (g : Geom) : antimeridian_epsg g ≠ 0 := by
  simp only [antimeridian_epsg, NORTH_EPSG, SOUTH_EPSG]
  split_ifs <;> norm_num

/-- C1 (counterexample): a single-row frame collection whose geometry is a
plain polygon with centroid latitude exactly 75 matches none of the numpy
masks of `get_epsg_codes`, so the row keeps the `np.zeros` placeholder:
the function returns 0 for it, and the geometry falls into none of the
three branches — refuting the claim that no geometry (e.g. one whose
centroid latitude is exactly 75) is left with the placeholder code 0. -/
theorem get_epsg_codes_boundary_zero :
    get_epsg_codes [(Geom.poly ⟨1, 0, 75⟩, false)] = [0] ∧
      ¬ amBranch (Geom.poly ⟨1, 0, 75⟩) ∧
      ¬ polarBranch (Geom.poly ⟨1, 0, 75⟩) ∧
      ¬ utmBranch (Geom.poly ⟨1, 0, 75⟩) := by
  refine ⟨?_, ?_, ?_, ?_⟩
  · norm_num [get_epsg_codes, get_epsg_code, is_on_antimeridian, centroidX, centroidY,
      NORTH_THRESHOLD, SOUTH_THRESHOLD]
  · simp [amBranch, is_on_antimeridian]
  · simp only [polarBranch, is_on_antimeridian, centroidY, NORTH_THRESHOLD, SOUTH_THRESHOLD]
    norm_num
  · simp only [utmBranch, is_on_antimeridian, centroidY, NORTH_THRESHOLD, SOUTH_THRESHOLD]
    norm_num

/-- C1 (amended): the three branches of the current builder's
`get_epsg_codes` are mutually exclusive and, for every row whose geometry
is either antimeridian-crossing or has centroid latitude different from
exactly 75, −60 and 0 (with centroid longitude in the range accepted by
`utm.from_latlon`), the computed EPSG code is nonzero and the geometry
falls into exactly one of the antimeridian / polar / UTM branches.
Non-antimeridian geometries with centroid latitude exactly 75, −60 or 0
are excluded: they match no branch and keep the placeholder 0. -/
theorem get_epsg_code_classified (g : Geom) (inG : Bool)
    (h : is_on_antimeridian g = false →
      centroidY g ≠ NORTH_THRESHOLD ∧ centroidY g ≠ SOUTH_THRESHOLD ∧ centroidY g ≠ 0 ∧
        -180 ≤ centroidX g ∧ centroidX g ≤ 180) :
    get_epsg_code g inG ≠ 0 ∧
      ((amBranch g ∧ ¬ polarBranch g ∧ ¬ utmBranch g) ∨
        (¬ amBranch g ∧ polarBranch g ∧ ¬ utmBranch g) ∨
        (¬ amBranch g ∧ ¬ polarBranch g ∧ utmBranch g)) := by
  cases hb : is_on_antimeridian g with
  | true =>
      refine ⟨?_, Or.inl ⟨hb, ?_, ?_⟩⟩
      · cases inG with
        | true => simp [get_epsg_code, NORTH_EPSG]
        | false => simp [get_epsg_code, hb, antimeridian_epsg_ne_zero g]
      · intro hp
        obtain ⟨h1, -⟩ := hp
        rw [hb] at h1
        simp at h1
      · intro hu
        obtain ⟨h1, -⟩ := hu
        rw [hb] at h1
        simp at h1
  | false =>
      obtain ⟨hy75, hy60, hy0, hx1, hx2⟩ := h hb
      set y := centroidY g with hy
      set x := centroidX g with hx
      have hzone := latlon_to_zone_number_bounds y x hx1 hx2
      have hval : get_epsg_code g inG ≠ 0 := by
        simp only [get_epsg_code, hb, if_false, Bool.false_eq_true,
          NORTH_EPSG, SOUTH_EPSG, ← hy, ← hx]
        cases inG with
        | true => norm_num
        | false =>
            simp only [if_false, Bool.false_eq_true]
            split_ifs with h1 h2 h3 h4
            · norm_num
            · norm_num
            · omega
            · omega
            · -- no mask matched: contradicts the boundary-latitude hypotheses
              exfalso
              push_neg at h3 h4
              have hyN : y < NORTH_THRESHOLD := lt_of_le_of_ne (not_lt.mp h1) hy75
              have hyS : SOUTH_THRESHOLD < y := lt_of_le_of_ne (not_lt.mp h2) (Ne.symm hy60)
              rcases lt_trichotomy y 0 with hneg | hzero | hpos
              · have := h4 hyS
                linarith
              · exact hy0 hzero
              · have := h3 hyN
                linarith
      refine ⟨hval, ?_⟩
      have hne : ¬ amBranch g := by simp [amBranch, hb]
      rcases lt_trichotomy y 0 with hneg | hzero | hpos
      · rcases lt_or_le y SOUTH_THRESHOLD with hs | hs
        · exact Or.inr (Or.inl ⟨hne, ⟨hb, Or.inr hs⟩, fun hu => by
            rcases hu.2 with ⟨ha, _⟩ | ⟨ha, _⟩ <;> simp only [← hy] at * <;> linarith⟩)
        · have hs' : SOUTH_THRESHOLD < y := lt_of_le_of_ne hs (Ne.symm hy60)
          refine Or.inr (Or.inr ⟨hne, fun hp => ?_, ⟨hb, Or.inr ⟨hs', hneg⟩⟩⟩)
          rcases hp.2 with hh | hh <;> simp only [← hy] at hh <;>
            [exact absurd hh (by simp only [NORTH_THRESHOLD]; linarith);
             exact absurd hh (not_lt.mpr hs)]
      · exact absurd hzero hy0
      · rcases lt_or_le NORTH_THRESHOLD y with hn | hn
        · exact Or.inr (Or.inl ⟨hne, ⟨hb, Or.inl hn⟩, fun hu => by
            rcases hu.2 with ⟨_, ha⟩ | ⟨_, ha⟩ <;> simp only [← hy] at * <;>
              [linarith; linarith]⟩)
        · have hn' : y < NORTH_THRESHOLD := lt_of_le_of_ne hn hy75
          refine Or.inr (Or.inr ⟨hne, fun hp => ?_, ⟨hb, Or.inl ⟨hpos, hn'⟩⟩⟩)
          rcases hp.2 with hh | hh <;> simp only [← hy] at hh <;>
            [exact absurd hh (not_lt.mpr hn);
             exact absurd hh (by simp only [SOUTH_THRESHOLD]; linarith)]

/-- C1 (witness): a polygon with centroid (10°E, 40°N) satisfies the
hypotheses and gets the nonzero code of exactly one branch. -/
theorem get_epsg_code_classified_witness :
    (is_on_antimeridian (Geom.poly ⟨1, 10, 40⟩) = false →
      centroidY (Geom.poly ⟨1, 10, 40⟩) ≠ NORTH_THRESHOLD ∧
        centroidY (Geom.poly ⟨1, 10, 40⟩) ≠ SOUTH_THRESHOLD ∧
        centroidY (Geom.poly ⟨1, 10, 40⟩) ≠ 0 ∧
        -180 ≤ centroidX (Geom.poly ⟨1, 10, 40⟩) ∧
        centroidX (Geom.poly ⟨1, 10, 40⟩) ≤ 180) ∧
    (get_epsg_code (Geom.poly ⟨1, 10, 40⟩) false ≠ 0 ∧
      ((amBranch (Geom.poly ⟨1, 10, 40⟩) ∧ ¬ polarBranch (Geom.poly ⟨1, 10, 40⟩) ∧
          ¬ utmBranch (Geom.poly ⟨1, 10, 40⟩)) ∨
        (¬ amBranch (Geom.poly ⟨1, 10, 40⟩) ∧ polarBranch (Geom.poly ⟨1, 10, 40⟩) ∧
          ¬ utmBranch (Geom.poly ⟨1, 10, 40⟩)) ∨
        (¬ amBranch (Geom.poly ⟨1, 10, 40⟩) ∧ ¬ polarBranch (Geom.poly ⟨1, 10, 40⟩) ∧
          utmBranch (Geom.poly ⟨1, 10, 40⟩)))) :=
  ⟨fun _ => by norm_num [centroidX, centroidY, NORTH_THRESHOLD, SOUTH_THRESHOLD],
    get_epsg_code_classified (Geom.poly ⟨1, 10, 40⟩) false (fun _ => by
      norm_num [centroidX, centroidY, NORTH_THRESHOLD, SOUTH_THRESHOLD])⟩

example : get_epsg_code (Geom.poly ⟨1, 10, 40⟩) false = 32632 := by
  norm_num [get_epsg_code, is_on_antimeridian, centroidX, centroidY,
    latlon_to_zone_number, pyInt, NORTH_THRESHOLD, SOUTH_THRESHOLD, NORTH_EPSG, SOUTH_EPSG]
example : centroidY (Geom.multi [⟨3, -359/2, 10⟩, ⟨1, 179, 10⟩]) = 10 := by
  norm_num [centroidY]
example : antimeridian_epsg (Geom.multi [⟨3, -359/2, 10⟩, ⟨1, 179, 10⟩]) = 32601 := by
  norm_num [antimeridian_epsg, centroidY, weighted_x_c, Geom.parts,
    NORTH_THRESHOLD, SOUTH_THRESHOLD]
example : legacy_antimeridian_epsg (Geom.multi [⟨3, -359/2, 10⟩, ⟨1, 179, 10⟩]) = 32660 := by
  norm_num [legacy_antimeridian_epsg, centroidY, weighted_x_c, Geom.parts]
example : legacy_get_epsg_code (Geom.multi [⟨1, 0, 10⟩]) = 32601 := by
  norm_num [legacy_get_epsg_code, legacy_is_antimeridian, legacy_antimeridian_epsg,
    centroidY, weighted_x_c, Geom.parts]
example : get_epsg_code (Geom.multi [⟨1, 0, 10⟩]) false = 32631 := by
  norm_num [get_epsg_code, is_on_antimeridian, centroidX, centroidY,
    latlon_to_zone_number, pyInt, NORTH_THRESHOLD, SOUTH_THRESHOLD]

/-- Python list slicing `l[s:e]` (for `s ≤ e`): drop `s`, keep `e - s`
elements, truncating at the end of the list. -/
def pySlice {α : Type} (l : List α) (s e : ℕ) : List α := (l.drop s).take (e - s)

/-- `make_frame_db._make_frame_slices`.  The slice length the source
reads (`slice(start, start + n_bursts)`) is the module-global `n_bursts`
bound by the command-line entry point (`n_bursts =
args.n_bursts_per_frame`), not the function's own `n_bursts_per_frame`
parameter; that global is made explicit here as the first argument.
`int(np.ceil(num_bursts / (n_bursts_per_frame - overlap)))` is the
natural ceiling division below. -/
def _make_frame_slices (n_bursts num_bursts n_bursts_per_frame overlap : ℕ) :
    List (ℕ × ℕ) :=
  let step := n_bursts_per_frame - overlap
  let N := (num_bursts + step - 1) / step
  (List.range N).map fun k => (k * step, k * step + n_bursts)

/-- One track of `make_frame_db.define_frames_to_burst`: the slices for
the track's distinct burst-id list (in catalog order), enumerated with
frame numbers starting at 1; each frame receives
`current_burst_ids[cur_slice]`. -/
def define_frames_for_track {α : Type} (n_bursts : ℕ) (burst_ids : List α)
    (n_bursts_per_frame overlap : ℕ) : List (ℕ × List α) :=
  let slices := _make_frame_slices n_bursts burst_ids.length n_bursts_per_frame overlap
  ((List.range slices.length).zip slices).map fun ks =>
    (ks.1 + 1, pySlice burst_ids ks.2.1 ks.2.2)

/-- `make_frame_db.define_frames_to_burst`: for every track (given with
its distinct burst-id list), append one `(track, frame_number, burst_id)`
row per burst of each frame. -/
def define_frames_to_burst {α : Type} (n_bursts : ℕ) (tracks : List (ℕ × List α))
    (n_bursts_per_frame overlap : ℕ) : List (ℕ × ℕ × α) :=
  tracks.flatMap fun t =>
    (define_frames_for_track n_bursts t.2 n_bursts_per_frame overlap).flatMap fun f =>
      f.2.map fun b => (t.1, f.1, b)

/-- C4: in the fixed-window construction (with the module-global slice
length equal to `n_bursts_per_frame`, as the command-line entry point
binds it), a track with `N ≥ 1` distinct burst ids and
`n_bursts_per_frame > overlap ≥ 0` yields exactly
`ceil(N / (n_bursts_per_frame - overlap))` frames, numbered from 1, the
0-indexed frame `k` covering the burst-id index range
`[k*step, k*step + n_bursts_per_frame)` truncated at `N` by slicing
semantics; consecutive frames' index ranges overlap in exactly `overlap`
indices and every burst-id index lies in at least one frame's range. -/
theorem define_frames_fixed_window {α : Type} (n_bursts n_bursts_per_frame overlap : ℕ)
    (ids : List α) (step M : ℕ)
    (hstep : step = n_bursts_per_frame - overlap)
    (hM : M = (ids.length + step - 1) / step)
    (hglob : n_bursts = n_bursts_per_frame)
    (hov : overlap < n_bursts_per_frame)
    (hN : 0 < ids.length) :
    define_frames_for_track n_bursts ids n_bursts_per_frame overlap =
      ((List.range M).map fun k => (k + 1, (ids.drop (k * step)).take n_bursts_per_frame)) ∧
    (define_frames_for_track n_bursts ids n_bursts_per_frame overlap).length = M ∧
    (∀ k : ℕ,
      (Finset.Ico (k * step) (k * step + n_bursts_per_frame) ∩
        Finset.Ico ((k + 1) * step) ((k + 1) * step + n_bursts_per_frame)).card = overlap) ∧
    (∀ i, i < ids.length →
      ∃ k, k < M ∧ k * step ≤ i ∧ i < k * step + n_bursts_per_frame) := by
  have hstep_pos : 0 < step := by omega
  have heq : define_frames_for_track n_bursts ids n_bursts_per_frame overlap =
      ((List.range M).map fun k =>
        (k + 1, (ids.drop (k * step)).take n_bursts_per_frame)) := by
    simp only [define_frames_for_track, _make_frame_slices, List.length_map,
      List.length_range, ← hstep, ← hM]
    nth_rewrite 1 [show List.range M = (List.range M).map id from (List.map_id _).symm]
    rw [List.zip_map', List.map_map]
    simp [pySlice, hglob, Function.comp]
  refine ⟨heq, by rw [heq]; simp, ?_, ?_⟩
  · intro k
    rw [Finset.Ico_inter_Ico]
    have h1 : max (k * step) ((k + 1) * step) = (k + 1) * step :=
      max_eq_right (Nat.mul_le_mul_right step (by omega))
    have h2 : min (k * step + n_bursts_per_frame) ((k + 1) * step + n_bursts_per_frame) =
        k * step + n_bursts_per_frame :=
      min_eq_left (by have := Nat.mul_le_mul_right step (show k ≤ k + 1 by omega); omega)
    rw [h1, h2, Nat.card_Ico]
    have : (k + 1) * step = k * step + step := by ring
    omega
  · intro i hi
    refine ⟨i / step, ?_, ?_, ?_⟩
    · rw [Nat.div_lt_iff_lt_mul hstep_pos]
      have hd := Nat.div_add_mod (ids.length + step - 1) step
      have hm := Nat.mod_lt (ids.length + step - 1) hstep_pos
      have hcomm : M * step = step * M := Nat.mul_comm _ _
      have hlen : ids.length ≤ M * step := by
        rw [hcomm, hM]
        omega
      omega
    · exact Nat.div_mul_le_self i step
    · have hd := Nat.div_add_mod i step
      have hm := Nat.mod_lt i hstep_pos
      have hcomm : i / step * step = step * (i / step) := Nat.mul_comm _ _
      omega

/-- C4 (witness): a track with 25 distinct burst ids and the defaults
`n_bursts_per_frame = 11`, `overlap = 1` (`step = 10`) produces
`ceil(25/10) = 3` frames covering index ranges [0,11), [10,21) and
[20,31) truncated to 25. -/
theorem define_frames_fixed_window_witness :
    ((1:ℕ) < 11 ∧ 0 < (List.range 25).length) ∧
    define_frames_for_track 11 (List.range 25) 11 1 =
      ((List.range 3).map fun k => (k + 1, ((List.range 25).drop (k * 10)).take 11)) :=
  ⟨⟨by decide, by decide⟩,
    (define_frames_fixed_window 11 11 1 (List.range 25) 10 3 rfl (by decide) rfl
      (by decide) (by decide)).1⟩

/-- C2: for every multipolygon whose overall centroid latitude lies
strictly between −60 and 75 degrees, the current builder's
`antimeridian_epsg` returns `base + zone_addition`, where `base` is 32600
when the centroid latitude is positive and 32700 otherwise, and
`zone_addition` is 1 when the area-weighted shifted longitude centroid
`weighted_x_c` exceeds 180 and 60 otherwise. -/
theorem antimeridian_epsg_weighted (mp : Geom)
    (h1 : SOUTH_THRESHOLD < centroidY mp) (h2 : centroidY mp < NORTH_THRESHOLD) :
    antimeridian_epsg mp =
      (if 0 < centroidY mp then 32600 else 32700) +
        (if 180 < weighted_x_c mp then 1 else 60) := by
  have hN : ¬ NORTH_THRESHOLD ≤ centroidY mp := not_le.mpr h2
  have hS : ¬ centroidY mp ≤ SOUTH_THRESHOLD := not_le.mpr h1
  simp only [antimeridian_epsg, ge_iff_le, gt_iff_lt]
  rw [if_neg hN, if_neg hS]

/-- C2 (witness): the asymmetric-area two-part multipolygon with part
centroids at −179.5° (area 3) and 179° (area 1), latitude 10°, gives the
weighted centroid (3·180.5 + 1·179)/4 = 180.125 > 180, hence zone 1
(EPSG 32601) — a simple unweighted average of the shifted part centroids
(179.75) would have selected zone 60 instead. -/
theorem antimeridian_epsg_weighted_witness :
    (SOUTH_THRESHOLD < centroidY (Geom.multi [⟨3, -359/2, 10⟩, ⟨1, 179, 10⟩]) ∧
      centroidY (Geom.multi [⟨3, -359/2, 10⟩, ⟨1, 179, 10⟩]) < NORTH_THRESHOLD) ∧
    weighted_x_c (Geom.multi [⟨3, -359/2, 10⟩, ⟨1, 179, 10⟩]) = 1441/8 ∧
    antimeridian_epsg (Geom.multi [⟨3, -359/2, 10⟩, ⟨1, 179, 10⟩]) = 32601 := by
  refine ⟨⟨?_, ?_⟩, ?_, ?_⟩
  · norm_num [centroidY, SOUTH_THRESHOLD]
  · norm_num [centroidY, NORTH_THRESHOLD]
  · norm_num [weighted_x_c, Geom.parts]
  · rw [antimeridian_epsg_weighted (Geom.multi [⟨3, -359/2, 10⟩, ⟨1, 179, 10⟩])
      (by norm_num [centroidY, SOUTH_THRESHOLD])
      (by norm_num [centroidY, NORTH_THRESHOLD])]
    norm_num [centroidY, weighted_x_c, Geom.parts]

/-- C3: on every multipolygon whose overall centroid latitude lies
strictly between −60 and 75 degrees and whose area-weighted shifted
longitude centroid is not exactly 180, the legacy builder's
`antimeridian_epsg` and the current builder's return different codes,
with zone additions 1 and 60 swapped relative to each other. -/
theorem legacy_antimeridian_epsg_swapped (mp : Geom)
    (h1 : SOUTH_THRESHOLD < centroidY mp) (h2 : centroidY mp < NORTH_THRESHOLD)
    (h3 : weighted_x_c mp ≠ 180) :
    legacy_antimeridian_epsg mp ≠ antimeridian_epsg mp ∧
      ((180 < weighted_x_c mp ∧
          antimeridian_epsg mp = (if 0 < centroidY mp then 32600 else 32700) + 1 ∧
          legacy_antimeridian_epsg mp =
            (if 0 < centroidY mp then 32600 else 32700) + 60) ∨
        (weighted_x_c mp < 180 ∧
          antimeridian_epsg mp = (if 0 < centroidY mp then 32600 else 32700) + 60 ∧
          legacy_antimeridian_epsg mp =
            (if 0 < centroidY mp then 32600 else 32700) + 1)) := by
  have hS0 : (-60:ℚ) < centroidY mp := by
    simpa [SOUTH_THRESHOLD] using h1
  have hN0 : centroidY mp < 75 := by
    simpa [NORTH_THRESHOLD] using h2
  have hN : ¬ NORTH_THRESHOLD ≤ centroidY mp := not_le.mpr h2
  have hS : ¬ centroidY mp ≤ SOUTH_THRESHOLD := not_le.mpr h1
  have hN' : ¬ (84:ℚ) ≤ centroidY mp := by linarith
  have hS' : ¬ centroidY mp ≤ (-60:ℚ) := not_le.mpr hS0
  simp only [antimeridian_epsg, legacy_antimeridian_epsg, ge_iff_le, gt_iff_lt]
  rw [if_neg hN, if_neg hS, if_neg hN', if_neg hS']
  rcases h3.lt_or_lt with hlt | hgt
  · rw [if_pos hlt, if_neg (by linarith : ¬ (180:ℚ) < weighted_x_c mp)]
    exact ⟨by split_ifs <;> omega, Or.inr ⟨hlt, rfl, rfl⟩⟩
  · rw [if_neg (by linarith : ¬ weighted_x_c mp < 180), if_pos hgt]
    exact ⟨by split_ifs <;> omega, Or.inl ⟨hgt, rfl, rfl⟩⟩

/-- C3 (witness): on the asymmetric two-part multipolygon with weighted
shifted centroid 180.125 and latitude 10°, the current builder returns
32601 and the legacy builder 32660. -/
theorem legacy_antimeridian_epsg_swapped_witness :
    (SOUTH_THRESHOLD < centroidY (Geom.multi [⟨3, -359/2, 10⟩, ⟨1, 179, 10⟩]) ∧
      centroidY (Geom.multi [⟨3, -359/2, 10⟩, ⟨1, 179, 10⟩]) < NORTH_THRESHOLD ∧
      weighted_x_c (Geom.multi [⟨3, -359/2, 10⟩, ⟨1, 179, 10⟩]) ≠ 180) ∧
    legacy_antimeridian_epsg (Geom.multi [⟨3, -359/2, 10⟩, ⟨1, 179, 10⟩]) ≠
      antimeridian_epsg (Geom.multi [⟨3, -359/2, 10⟩, ⟨1, 179, 10⟩]) := by
  refine ⟨⟨?_, ?_, ?_⟩, ?_⟩
  · norm_num [centroidY, SOUTH_THRESHOLD]
  · norm_num [centroidY, NORTH_THRESHOLD]
  · norm_num [weighted_x_c, Geom.parts]
  · exact (legacy_antimeridian_epsg_swapped (Geom.multi [⟨3, -359/2, 10⟩, ⟨1, 179, 10⟩])
      (by norm_num [centroidY, SOUTH_THRESHOLD])
      (by norm_num [centroidY, NORTH_THRESHOLD])
      (by norm_num [weighted_x_c, Geom.parts])).1

/-- C10: the two builder generations classify antimeridian-crossing
geometries differently — the legacy `get_epsg_codes` routes every
non-`Polygon` geometry (including a single-part `MultiPolygon`) through
`antimeridian_epsg` while the current builder requires more than one
part — and on the single-part multipolygon with centroid (0°E, 10°N) the
legacy rule yields 32601 (weighted-centroid antimeridian formula) while
the current rule yields 32631 (standard centroid UTM zone): different
codes for the identical geometry. -/
theorem get_epsg_codes_generations_diverge :
    (∀ p : PolyPart, legacy_is_antimeridian (Geom.multi [p]) = true ∧
        is_on_antimeridian (Geom.multi [p]) = false) ∧
    legacy_get_epsg_code (Geom.multi [⟨1, 0, 10⟩]) =
      legacy_antimeridian_epsg (Geom.multi [⟨1, 0, 10⟩]) ∧
    legacy_get_epsg_code (Geom.multi [⟨1, 0, 10⟩]) = 32601 ∧
    get_epsg_code (Geom.multi [⟨1, 0, 10⟩]) false =
      32600 + latlon_to_zone_number (centroidY (Geom.multi [⟨1, 0, 10⟩]))
        (centroidX (Geom.multi [⟨1, 0, 10⟩])) ∧
    get_epsg_code (Geom.multi [⟨1, 0, 10⟩]) false = 32631 ∧
    legacy_get_epsg_code (Geom.multi [⟨1, 0, 10⟩]) ≠
      get_epsg_code (Geom.multi [⟨1, 0, 10⟩]) false := by
  refine ⟨fun p => ⟨rfl, rfl⟩, ?_, ?_, ?_, ?_, ?_⟩
  · simp [legacy_get_epsg_code, legacy_is_antimeridian]
  · norm_num [legacy_get_epsg_code, legacy_is_antimeridian, legacy_antimeridian_epsg,
      centroidY, weighted_x_c, Geom.parts]
  · norm_num [get_epsg_code, is_on_antimeridian, centroidX, centroidY,
      NORTH_THRESHOLD, SOUTH_THRESHOLD]
  · norm_num [get_epsg_code, is_on_antimeridian, centroidX, centroidY,
      latlon_to_zone_number, pyInt, NORTH_THRESHOLD, SOUTH_THRESHOLD]
  · norm_num [get_epsg_code, legacy_get_epsg_code, is_on_antimeridian,
      legacy_is_antimeridian, legacy_antimeridian_epsg, centroidX, centroidY,
      weighted_x_c, Geom.parts, latlon_to_zone_number, pyInt,
      NORTH_THRESHOLD, SOUTH_THRESHOLD]

/-- A projected envelope `(minX, minY, maxX, maxY)` as produced by
`ST_Envelope(ST_Transform(geom, epsg))`. -/
structure Envelope where
  minX : ℚ
  minY : ℚ
  maxX : ℚ
  maxY : ℚ
deriving DecidableEq, Repr

/-- A `burst_id_map` row as `save_utm_bounding_boxes` sees it: its
primary key, its assigned epsg, its projected envelope, and the four
bounding-box columns (unset until the update writes them). -/
structure BurstRow where
  ogc_fid : ℕ
  epsg : ℤ
  env : Envelope
  bbox : Option Envelope
deriving DecidableEq, Repr

/-- Round to the nearest integer, ties to even — how Python's fixed-point
float formatting resolves a tie. -/
def roundHalfEven (x : ℚ) : ℤ :=
  let f := ⌊x⌋
  if x - f < 1/2 then f
  else if x - f > 1/2 then f + 1
  else if f % 2 = 0 then f else f + 1

/-- The value of the one-decimal literal Python's `f"{v:.1f}"` writes
into the SQL text: `v` rounded to one decimal place, ties to even.
(Snap values are modelled as the exact rationals of binary-representable
floats, e.g. 30.0 or 0.25.) -/
def fmt1f (v : ℚ) : ℚ := (roundHalfEven (10 * v) : ℚ) / 10

/-- The snapped box computed by the `bboxes` subquery of
`build_frame_db.save_utm_bounding_boxes`:
`FLOOR((min - margin)/snap1)*snap1` on the lower corners and
`CEIL((max + margin)/snap1)*snap1` on the upper corners, where `snap1`
is the `{snap:.1f}` literal interpolated into the SQL text — the snap
value rounded to one decimal, not the snap parameter itself.  `margin` is
interpolated as `{margin}`, which reproduces the float exactly.  When the
one-decimal literal is `0.0` the division yields SQL NULL, which
propagates to all four columns (`none`). -/
def snap_bounds (margin snap : ℚ) (e : Envelope) : Option Envelope :=
  let snap1 := fmt1f snap
  if snap1 = 0 then none
  else
    some ⟨(⌊(e.minX - margin) / snap1⌋ : ℚ) * snap1,
          (⌊(e.minY - margin) / snap1⌋ : ℚ) * snap1,
          (⌈(e.maxX + margin) / snap1⌉ : ℚ) * snap1,
          (⌈(e.maxY + margin) / snap1⌉ : ℚ) * snap1⟩

/-- The effect of `save_utm_bounding_boxes`'s UPDATE on one row: the
`transformed` CTE keeps only rows `WHERE epsg != 0`, so a row whose epsg
is 0 is not joined and keeps its columns; every other row gets the
snapped box of its projected envelope (NULL columns when the one-decimal
snap literal is zero). -/
def save_row (margin snap : ℚ) (r : BurstRow) : BurstRow :=
  if r.epsg ≠ 0 then { r with bbox := snap_bounds margin snap r.env } else r

/-- `build_frame_db.save_utm_bounding_boxes` over the `burst_id_map`
rows. -/
def save_utm_bounding_boxes (margin snap : ℚ) (rows : List BurstRow) : List BurstRow :=
  rows.map (save_row margin snap)

/-- C5 (counterexample): the claim's formulas use the exact snap
parameter, but the SQL interpolates `{snap:.1f}`.  At margin 0 and
snap 0.25 (in the claim's domain margin ≥ 0, snap > 0) the one-decimal
literal is 0.2, so the envelope (0.25, 0.25, 0.25, 0.25) of a burst with
nonzero epsg is stored as (0.2, 0.2, 0.4, 0.4), while the claim's
exact-snap formula gives 0.25 for every corner. -/
theorem save_utm_bounding_boxes_snap_quantized :
    (0:ℚ) ≤ 0 ∧ (0:ℚ) < 1/4 ∧
    fmt1f (1/4) = 1/5 ∧
    (save_row 0 (1/4) ⟨7, 32631, ⟨1/4, 1/4, 1/4, 1/4⟩, none⟩).bbox =
      some ⟨1/5, 1/5, 2/5, 2/5⟩ ∧
    (⌊((1/4:ℚ) - 0) / (1/4)⌋ : ℚ) * (1/4) = 1/4 ∧
    (1/5 : ℚ) ≠ 1/4 := by
  refine ⟨le_refl 0, by norm_num, ?_, ?_, by norm_num, by norm_num⟩
  · norm_num [fmt1f, roundHalfEven]
  · have hq : fmt1f (1/4) = 1/5 := by norm_num [fmt1f, roundHalfEven]
    have hc : (⌈(5/4:ℚ)⌉ : ℤ) = 2 := by
      rw [Int.ceil_eq_iff]
      norm_num
    simp only [save_row, snap_bounds, hq]
    norm_num [hc]

/-- C5 (amended): for margin ≥ 0 and snap > 0 whose one-decimal SQL
literal reproduces it exactly (`fmt1f snap = snap`, as for the default
30.0), every burst row with nonzero epsg gets exactly the
floor/ceil-snapped box of its projected envelope; when margin > 0 that
box strictly contains the unsnapped envelope; and a row whose epsg is
still 0 is left unchanged (its bounding-box columns are not set).  For
other snap values the program snaps with `fmt1f snap` instead. -/
theorem save_utm_bounding_boxes_snap (margin snap : ℚ) (r : BurstRow)
    (hm : 0 ≤ margin) (hs : 0 < snap) (hq : fmt1f snap = snap) :
    (r.epsg ≠ 0 → (save_row margin snap r).bbox =
      some ⟨(⌊(r.env.minX - margin) / snap⌋ : ℚ) * snap,
            (⌊(r.env.minY - margin) / snap⌋ : ℚ) * snap,
            (⌈(r.env.maxX + margin) / snap⌉ : ℚ) * snap,
            (⌈(r.env.maxY + margin) / snap⌉ : ℚ) * snap⟩) ∧
    (0 < margin →
      (⌊(r.env.minX - margin) / snap⌋ : ℚ) * snap < r.env.minX ∧
      (⌊(r.env.minY - margin) / snap⌋ : ℚ) * snap < r.env.minY ∧
      r.env.maxX < (⌈(r.env.maxX + margin) / snap⌉ : ℚ) * snap ∧
      r.env.maxY < (⌈(r.env.maxY + margin) / snap⌉ : ℚ) * snap) ∧
    (r.epsg = 0 → save_row margin snap r = r) := by
  have hsne : snap ≠ 0 := ne_of_gt hs
  have hfloor : ∀ v : ℚ, (⌊v / snap⌋ : ℚ) * snap ≤ v := fun v => by
    have h := Int.floor_le (v / snap)
    calc (⌊v / snap⌋ : ℚ) * snap ≤ v / snap * snap :=
          mul_le_mul_of_nonneg_right h (le_of_lt hs)
      _ = v := div_mul_cancel₀ v hsne
  have hceil : ∀ v : ℚ, v ≤ (⌈v / snap⌉ : ℚ) * snap := fun v => by
    have h := Int.le_ceil (v / snap)
    calc v = v / snap * snap := (div_mul_cancel₀ v hsne).symm
      _ ≤ (⌈v / snap⌉ : ℚ) * snap := mul_le_mul_of_nonneg_right h (le_of_lt hs)
  refine ⟨fun hne => ?_, fun hmpos => ?_, fun hz => ?_⟩
  · simp [save_row, hne, snap_bounds, hq, hsne]
  · refine ⟨?_, ?_, ?_, ?_⟩
    · calc (⌊(r.env.minX - margin) / snap⌋ : ℚ) * snap ≤ r.env.minX - margin := hfloor _
        _ < r.env.minX := by linarith
    · calc (⌊(r.env.minY - margin) / snap⌋ : ℚ) * snap ≤ r.env.minY - margin := hfloor _
        _ < r.env.minY := by linarith
    · calc r.env.maxX < r.env.maxX + margin := by linarith
        _ ≤ (⌈(r.env.maxX + margin) / snap⌉ : ℚ) * snap := hceil _
    · calc r.env.maxY < r.env.maxY + margin := by linarith
        _ ≤ (⌈(r.env.maxY + margin) / snap⌉ : ℚ) * snap := hceil _
  · simp [save_row, hz]

/-- C5 (witness): with margin 5000 and snap 30 (whose one-decimal literal
"30.0" reproduces it), the envelope (100123.4, 200456.7, 300789.1,
400012.3) of a burst with nonzero epsg is snapped to (95100, 195450,
305790, 405030), which strictly contains the unsnapped envelope; a row
with epsg 0 is untouched. -/
theorem save_utm_bounding_boxes_snap_witness :
    ((0:ℚ) ≤ 5000 ∧ (0:ℚ) < 30 ∧ fmt1f 30 = 30) ∧
    (save_row 5000 30 ⟨7, 32631, ⟨1001234/10, 2004567/10, 3007891/10, 4000123/10⟩,
        none⟩).bbox = some ⟨95100, 195450, 305790, 405030⟩ ∧
    save_row 5000 30 ⟨8, 0, ⟨1001234/10, 2004567/10, 3007891/10, 4000123/10⟩, none⟩ =
      ⟨8, 0, ⟨1001234/10, 2004567/10, 3007891/10, 4000123/10⟩, none⟩ ∧
    (95100:ℚ) < 1001234/10 ∧ (195450:ℚ) < 2004567/10 ∧
    (3007891:ℚ)/10 < 305790 ∧ (4000123:ℚ)/10 < 405030 := by
  have hq : fmt1f 30 = 30 := by norm_num [fmt1f, roundHalfEven]
  have h1 := (save_utm_bounding_boxes_snap 5000 30
    ⟨7, 32631, ⟨1001234/10, 2004567/10, 3007891/10, 4000123/10⟩, none⟩
    (by norm_num) (by norm_num) hq).1 (by norm_num)
  have h3 := (save_utm_bounding_boxes_snap 5000 30
    ⟨8, 0, ⟨1001234/10, 2004567/10, 3007891/10, 4000123/10⟩, none⟩
    (by norm_num) (by norm_num) hq).2.2 rfl
  refine ⟨⟨by norm_num, by norm_num, hq⟩, ?_, h3, by norm_num, by norm_num, by norm_num,
    by norm_num⟩
  rw [h1]
  have hc1 : (⌈(1019297:ℚ) / 100⌉ : ℤ) = 10193 := by
    rw [Int.ceil_eq_iff]
    norm_num
  have hc2 : (⌈(1350041:ℚ) / 100⌉ : ℤ) = 13501 := by
    rw [Int.ceil_eq_iff]
    norm_num
  norm_num [hc1, hc2]


/-- Python `str.zfill`: left-pad with `'0'` up to `width`; a string at
least `width` long is returned unchanged.  (The sign-aware case of
`zfill` never arises here: the inputs are decimal digit strings of
nonnegative integers.) -/
def zfill (s : String) (width : ℕ) : String :=
  if width ≤ s.length then s
  else String.mk (List.replicate (width - s.length) '0') ++ s

/-- Python `str.lower()`: lowercase every character (the subswath names
are ASCII). -/
def pyLower (s : String) : String := String.mk (s.data.map Char.toLower)

/-- `build_frame_db.make_jpl_burst_id` on one Raw Burst Record:
`"t" + zfill(str(relative_orbit_number), 3) + "_" +
zfill(str(burst_id), 6) + "_" + subswath_name.lower()`.  The source maps
this over a dataframe column-wise; one record is embedded. -/
def make_jpl_burst_id (relative_orbit_number burst_id : ℕ) (subswath_name : String) :
    String :=
  "t" ++ zfill (toString relative_orbit_number) 3 ++ "_"
    ++ zfill (toString burst_id) 6 ++ "_" ++ pyLower subswath_name

/-- `make_frame_db.make_jpl_burst_id` (legacy builder): an independent,
textually identical copy of the same computation. -/
def legacy_make_jpl_burst_id (relative_orbit_number burst_id : ℕ)
    (subswath_name : String) : String :=
  "t" ++ zfill (toString relative_orbit_number) 3 ++ "_"
    ++ zfill (toString burst_id) 6 ++ "_" ++ pyLower subswath_name

/-- C6: the derived JPL burst identifier is the concatenation of "t", the
track number zero-padded to width 3, "_", the burst id zero-padded to
width 6, "_" and the lowercased subswath name; the record
(5, 42, "IW2") yields exactly "t005_000042_iw2", boundary values
(175, 375887, "IW3") yield "t175_375887_iw3", and the two builders'
copies agree on every record. -/
theorem make_jpl_burst_id_spec :
    (∀ (r b : ℕ) (s : String), make_jpl_burst_id r b s = legacy_make_jpl_burst_id r b s) ∧
    (∀ (r b : ℕ) (s : String), make_jpl_burst_id r b s =
      "t" ++ zfill (toString r) 3 ++ "_" ++ zfill (toString b) 6 ++ "_" ++ pyLower s) ∧
    make_jpl_burst_id 5 42 "IW2" = "t005_000042_iw2" ∧
    make_jpl_burst_id 175 375887 "IW3" = "t175_375887_iw3" ∧
    make_jpl_burst_id 1 1 "IW1" = "t001_000001_iw1" :=
  ⟨fun _ _ _ => rfl, fun _ _ _ => rfl, by decide, by decide, by decide⟩

/-- A value handed to `csv.writer.writerow`: either a string cell or a
whole result tuple (which the csv module renders into a single cell via
`str(...)`). -/
inductive CsvValue where
  | str : String → CsvValue
  | tuple : List String → CsvValue
deriving DecidableEq, Repr

/-- Helper for `pyReplace`: walk the character list, replacing every
occurrence of the (nonempty) pattern; the input length serves as
structural fuel. -/
def pyReplaceAux (fuel : ℕ) (pat repl : List Char) (l : List Char) : List Char :=
  match fuel, l with
  | 0, l => l
  | _ + 1, [] => []
  | fuel + 1, c :: rest =>
    if pat.isPrefixOf (c :: rest) then
      repl ++ pyReplaceAux fuel pat repl (List.drop pat.length (c :: rest))
    else c :: pyReplaceAux fuel pat repl rest

/-- Python `str.replace` (replace all occurrences of a nonempty
pattern). -/
def pyReplace (s pattern replacement : String) : String :=
  String.mk (pyReplaceAux s.data.length pattern.data replacement.data s.data)

/-- The CSV rows emitted by `query_historical_bursts._fetch_base`: an
optional header row built cell-per-column from the select list (with any
"DISTINCT " prefix stripped), then, for each result row,
`writerow([row_processor(row)])` — a single-element list, i.e. one CSV
cell per data row.  `row_processor` defaults to the identity
`lambda row: row`. -/
def fetch_base_rows (row_processor : List String → CsvValue)
    (select_columns : List String) (results : List (List String))
    (headers : Bool) : List (List CsvValue) :=
  (if headers then [select_columns.map fun c => CsvValue.str (pyReplace c "DISTINCT " "")]
   else [])
    ++ results.map fun row => [row_processor row]

/-- `query_historical_bursts.fetch_bursts`: selects `burst_id_jpl,
sensing_time` (plus `granule` when `with_granule`), and calls
`_fetch_base` with the `row_processor` argument left at its default
identity (the call site has `row_processor` commented out), so each
result tuple is written as one cell. -/
def fetch_bursts (with_granule : Bool) (results : List (List String))
    (headers : Bool) : List (List CsvValue) :=
  let select_columns :=
    ["burst_id_jpl", "sensing_time"] ++ if with_granule then ["granule"] else []
  fetch_base_rows CsvValue.tuple select_columns results headers

/-- C7 (code evaluated at the failing input): for a single matching
record `("t001_000001_iw1", "2020-01-01")` with `with_granule = false`
and headers on, `fetch_bursts` emits a two-column header row but a
one-column data row whose single cell is the whole tuple — the selected
fields are not separate CSV columns of the data row, contradicting the
claim (and the header the function itself writes). -/
theorem fetch_bursts_single_cell_row :
    fetch_bursts false [["t001_000001_iw1", "2020-01-01"]] true =
      [[CsvValue.str "burst_id_jpl", CsvValue.str "sensing_time"],
        [CsvValue.tuple ["t001_000001_iw1", "2020-01-01"]]] ∧
    ((fetch_bursts false [["t001_000001_iw1", "2020-01-01"]] true).map List.length) =
      [2, 1] := by
  constructor <;> rfl

/-- An HTTP response as `requests.get` returns it: a status code and a
raw body. -/
structure Response (β : Type) where
  status_code : ℕ
  content : β

/-- `db_to_json.download_burst_dict`, with the external effects abstracted:
`gzip_decompress` stands for `gzip.decompress`, `utf8_decode` for
`.decode('utf-8')` and `json_loads` for `json.loads`; `r` is the response
of `requests.get(url)`.  A non-200 status raises
`ValueError(f"Could not download {url}")`, modelled as `Except.error`
carrying the message. -/
def download_burst_dict {β γ δ : Type} (gzip_decompress : β → γ)
    (utf8_decode : γ → String) (json_loads : String → δ)
    (url : String) (r : Response β) : Except String δ :=
  if r.status_code ≠ 200 then .error ("Could not download " ++ url)
  else .ok (json_loads (utf8_decode (gzip_decompress r.content)))

/-- C8: the download fails exactly when the response status is not 200,
and then with the error message naming the attempted URL; on a 200
response it returns the JSON parse of the decoded gzip-decompressed
body. -/
theorem download_burst_dict_status {β γ δ : Type} (gzip_decompress : β → γ)
    (utf8_decode : γ → String) (json_loads : String → δ)
    (url : String) (r : Response β) :
    (∀ e, download_burst_dict gzip_decompress utf8_decode json_loads url r = .error e ↔
      (r.status_code ≠ 200 ∧ e = "Could not download " ++ url)) ∧
    (r.status_code = 200 →
      download_burst_dict gzip_decompress utf8_decode json_loads url r =
        .ok (json_loads (utf8_decode (gzip_decompress r.content)))) := by
  constructor
  · intro e
    unfold download_burst_dict
    split_ifs with h
    · simp [h, eq_comm]
    · simp [h]
  · intro h
    simp [download_burst_dict, h]

/-- C8 (witness): on a 200 response the pipeline value is returned, and
on a 404 response the error names the URL. -/
theorem download_burst_dict_status_witness :
    ((⟨200, [7]⟩ : Response (List ℕ)).status_code = 200 ∧
      download_burst_dict (fun b => b) (fun b => toString b) (fun s => s.length)
        "https://example.org/burst.json.gz" (⟨200, [7]⟩ : Response (List ℕ)) =
        .ok (toString [7]).length) ∧
    download_burst_dict (fun b => b) (fun b => toString b) (fun s => s.length)
      "https://example.org/burst.json.gz" (⟨404, [7]⟩ : Response (List ℕ)) =
      .error ("Could not download " ++ "https://example.org/burst.json.gz") :=
  ⟨⟨rfl, (download_burst_dict_status (fun b => b) (fun b => toString b)
      (fun s => s.length) "https://example.org/burst.json.gz" ⟨200, [7]⟩).2 rfl⟩,
    ((download_burst_dict_status (fun b => b) (fun b => toString b)
      (fun s => s.length) "https://example.org/burst.json.gz" ⟨404, [7]⟩).1 _).mpr
      ⟨by decide, rfl⟩⟩

/-- The process state the acquisition routine mutates: its current
working directory. -/
structure FsState where
  cwd : String
deriving DecidableEq, Repr

/-- A step of the acquisition routine: a state transformer that may fail
(raise) with an error message. -/
def FsM (α : Type) : Type := FsState → Except String α × FsState

/-- Sequencing of two steps: the second runs only if the first did not
raise. -/
def fsSeq (m1 m2 : FsM Unit) : FsM Unit := fun s =>
  match m1 s with
  | (.error e, s1) => (.error e, s1)
  | (.ok _, s1) => m2 s1

/-- `os.chdir`: always succeeds, replacing the working directory. -/
def chdir (d : String) : FsM Unit := fun _ => (.ok (), ⟨d⟩)

/-- A step (download, extract, move, rmtree) whose outcome is given and
which does not itself change the working directory. -/
def liftStep (step : Except String Unit) : FsM Unit := fun s => (step, s)

/-- Python `try ... finally`: the finalizer runs whether or not the body
raised; if the body raised and the finalizer does not, the body's
exception propagates. -/
def pyTryFinally (body fin : FsM Unit) : FsM Unit := fun s =>
  let (r, s1) := body s
  let (rf, s2) := fin s1
  (match r with
   | .error e => .error e
   | .ok _ => rf, s2)

/-- Sequencing of plain outcomes: the first error wins. -/
def exceptSeq (a b : Except String Unit) : Except String Unit :=
  match a with
  | .error e => .error e
  | .ok _ => b

/-- `make_frame_db.get_esa_burst_db`: capture `cur_dir = os.getcwd()`,
then inside `try:` change into the temporary directory and run the
download (`wget`), extraction, move and directory-removal steps, and in
`finally:` change back to `cur_dir`.  The outcomes of the four effectful
steps are inputs of the model; the temporary-directory context manager
does not touch the working directory. -/
def get_esa_burst_db (tmpdir : String)
    (download extract move_file rmtree : Except String Unit) : FsM Unit := fun s =>
  let cur_dir := s.cwd
  pyTryFinally
    (fsSeq (chdir tmpdir)
      (fsSeq (liftStep download)
        (fsSeq (liftStep extract)
          (fsSeq (liftStep move_file) (liftStep rmtree)))))
    (chdir cur_dir) s

/-- C9: whatever the outcomes of the download, extraction, move and
removal steps, the acquisition routine ends with the working directory
it started with, and the caller observes exactly the first failing
step's error (or success if none fails). -/
theorem get_esa_burst_db_restores_cwd (tmpdir : String)
    (download extract move_file rmtree : Except String Unit) (s : FsState) :
    (get_esa_burst_db tmpdir download extract move_file rmtree s).2.cwd = s.cwd ∧
    (get_esa_burst_db tmpdir download extract move_file rmtree s).1 =
      exceptSeq download (exceptSeq extract (exceptSeq move_file rmtree)) := by
  cases download <;> cases extract <;> cases move_file <;> cases rmtree <;>
    simp [get_esa_burst_db, pyTryFinally, fsSeq, chdir, liftStep, exceptSeq]
